import Mathlib

/-!
Shallow embedding of the LinkedIn posting agent (`linkedin-agent.js`).

The agent is a class whose methods issue HTTP requests through axios.
We embed it as pure Lean functions over:
  * a `Config` (the credential context read from the environment),
  * a `Transport` stub (a function from the call index — the number of
    HTTP calls the operation has made so far — to the outcome of that call),
  * a file system stub `String → Option String` (the bytes of a file, or
    `none` when `fs.readFileSync` throws).

Each operation returns a `RunResult`: the value or error it settles with,
the ordered list of HTTP requests it issued, and the log it produced.
-/

set_option autoImplicit false

namespace LinkedInAgent

/-- Wire-format JSON documents (only the shapes the agent builds/reads). -/
inductive Json where
  | str : String → Json
  | num : Int → Json
  | arr : List Json → Json
  | obj : List (String × Json) → Json

/-- Lookup of a key in an object's field list (first match, as in JS). -/
def lookupKV : List (String × Json) → String → Option Json
  | [], _ => none
  | (k, v) :: rest, key => if k = key then some v else lookupKV rest key

/-- Property access `j[k]` on an object; `none` on any other shape. -/
def Json.getObj : Json → String → Option Json
  | Json.obj kvs, k => lookupKV kvs k
  | _, _ => none

/-- Chained property access `j[k1][k2]...`. -/
def Json.getPath (j : Json) (path : List String) : Option Json :=
  path.foldl (fun acc k => acc.bind (fun x => Json.getObj x k)) (some j)

/-- The string carried by a JSON string node. -/
def Json.asStr : Json → Option String
  | Json.str s => some s
  | _ => none

/-- Errors a method can settle with: a plain JS `Error` (configuration
errors, `fs.readFileSync` failures, TypeErrors), an axios error carrying a
non-2xx response (`error.response` set), or an axios error where no
response was received (`error.request` set, `error.response` not). -/
inductive JsError where
  | jsMessage : String → JsError
  | httpResponse : Nat → Json → JsError
  | httpNoResponse : String → JsError

/-- Structured console output of the agent. -/
inductive LogEntry where
  | apiError : Nat → Json → LogEntry
  | networkError : String → LogEntry
  | clientError : String → LogEntry
  | info : String → LogEntry

/-- The branch of `handleError` an error falls into: `error.response`
present → API error with status and body; `error.request` present →
no-response diagnostic; otherwise → plain local error. -/
def classify : JsError → LogEntry
  | JsError.httpResponse status body => LogEntry.apiError status body
  | JsError.httpNoResponse msg => LogEntry.networkError msg
  | JsError.jsMessage msg => LogEntry.clientError msg

/-- `handleError(error)`: log the classified diagnostic, then rethrow the
original error. -/
def handleError (e : JsError) : LogEntry × JsError := (classify e, e)

/-- Credential context: `process.env.LINKEDIN_ACCESS_TOKEN` and
`process.env.LINKEDIN_PERSON_URN`, each possibly unset. -/
structure Config where
  accessToken : Option String
  personURN : Option String

/-- JS truthiness of an env string: unset and empty are falsy. -/
def truthy : Option String → Bool
  | none => false
  | some s => !s.isEmpty

/-- The person URN as the methods read it after validation. -/
def Config.urn (cfg : Config) : String := cfg.personURN.getD ""

/-- `validateConfig()`: throw on a falsy token, then on a falsy URN. -/
def validateConfig (cfg : Config) : Except JsError Unit :=
  if !truthy cfg.accessToken then
    Except.error (JsError.jsMessage "LINKEDIN_ACCESS_TOKEN is not set in .env file")
  else if !truthy cfg.personURN then
    Except.error (JsError.jsMessage "LINKEDIN_PERSON_URN is not set in .env file")
  else Except.ok ()

def baseURL : String := "https://api.linkedin.com/v2"
def ugcPostsURL : String := baseURL ++ "/ugcPosts"
def registerUploadURL : String := "https://api.linkedin.com/v2/assets?action=registerUpload"
def meURL : String := baseURL ++ "/me"

inductive Method where
  | get | post | put
deriving DecidableEq

/-- Body of an HTTP request: a JSON document, raw binary bytes (the image
buffer of the PUT upload), or nothing (GET). -/
inductive ReqBody where
  | jsonBody : Json → ReqBody
  | binary : String → ReqBody
  | empty : ReqBody

structure HttpCall where
  method : Method
  url : String
  body : ReqBody

/-- Outcome the transport stub yields for one axios call. -/
inductive TransportOutcome where
  | success : Json → TransportOutcome
  | failure : JsError → TransportOutcome

/-- Transport stub: maps the index of an operation's HTTP call (0-based,
in issue order) to its outcome. -/
def Transport := Nat → TransportOutcome

/-- Result of running one method: the settlement, the HTTP calls issued in
order, and the log. -/
structure RunResult (α : Type) where
  result : Except JsError α
  calls : List HttpCall
  log : List LogEntry

/-- The `postData` document of `postTextUpdate` (lines 51–65). -/
def textPostData (personURN text visibility : String) : Json :=
  Json.obj
    [("author", Json.str personURN),
     ("lifecycleState", Json.str "PUBLISHED"),
     ("specificContent", Json.obj
       [("com.linkedin.ugc.ShareContent", Json.obj
         [("shareCommentary", Json.obj [("text", Json.str text)]),
          ("shareMediaCategory", Json.str "NONE")])]),
     ("visibility", Json.obj
       [("com.linkedin.ugc.MemberNetworkVisibility", Json.str visibility)])]

/-- The `postData` document of `postArticle` (lines 93–117). -/
def articlePostData (personURN text articleUrl articleTitle articleDescription
    visibility : String) : Json :=
  Json.obj
    [("author", Json.str personURN),
     ("lifecycleState", Json.str "PUBLISHED"),
     ("specificContent", Json.obj
       [("com.linkedin.ugc.ShareContent", Json.obj
         [("shareCommentary", Json.obj [("text", Json.str text)]),
          ("shareMediaCategory", Json.str "ARTICLE"),
          ("media", Json.arr
            [Json.obj
              [("status", Json.str "READY"),
               ("originalUrl", Json.str articleUrl),
               ("title", Json.obj [("text", Json.str articleTitle)]),
               ("description", Json.obj [("text", Json.str articleDescription)])]])])]),
     ("visibility", Json.obj
       [("com.linkedin.ugc.MemberNetworkVisibility", Json.str visibility)])]

/-- The `postData` document of `postImage` step 3 (lines 152–170); `asset`
is the handle extracted from the registration response. -/
def imagePostData (personURN text visibility : String) (asset : Json) : Json :=
  Json.obj
    [("author", Json.str personURN),
     ("lifecycleState", Json.str "PUBLISHED"),
     ("specificContent", Json.obj
       [("com.linkedin.ugc.ShareContent", Json.obj
         [("shareCommentary", Json.obj [("text", Json.str text)]),
          ("shareMediaCategory", Json.str "IMAGE"),
          ("media", Json.arr
            [Json.obj
              [("status", Json.str "READY"),
               ("media", asset)]])])]),
     ("visibility", Json.obj
       [("com.linkedin.ugc.MemberNetworkVisibility", Json.str visibility)])]

/-- The `registerData` document of `registerImageUpload` (lines 190–199). -/
def registerData (personURN : String) : Json :=
  Json.obj
    [("registerUploadRequest", Json.obj
      [("recipes", Json.arr [Json.str "urn:li:digitalmediaRecipe:feedshare-image"]),
       ("owner", Json.str personURN),
       ("serviceRelationships", Json.arr
         [Json.obj
           [("relationshipType", Json.str "OWNER"),
            ("identifier", Json.str "urn:li:userGeneratedContent")]])])]

/-- `postTextUpdate(text, visibility = 'PUBLIC')`. The visibility
parameter is `none` when the caller passed `undefined`, in which case the
JS default applies. -/
def postTextUpdate (cfg : Config) (tr : Transport) (text : String)
    (visibility : Option String) : RunResult Json :=
  let vis := visibility.getD "PUBLIC"
  match validateConfig cfg with
  | Except.error e =>
    let (entry, err) := handleError e
    ⟨Except.error err, [], [entry]⟩
  | Except.ok _ =>
    let call : HttpCall :=
      ⟨Method.post, ugcPostsURL, ReqBody.jsonBody (textPostData cfg.urn text vis)⟩
    match tr 0 with
    | TransportOutcome.success body =>
      ⟨Except.ok body, [call], [LogEntry.info "Successfully posted to LinkedIn!"]⟩
    | TransportOutcome.failure e =>
      let (entry, err) := handleError e
      ⟨Except.error err, [call], [entry]⟩

/-- `postArticle(text, articleUrl, articleTitle, articleDescription,
visibility = 'PUBLIC')`. -/
def postArticle (cfg : Config) (tr : Transport)
    (text articleUrl articleTitle articleDescription : String)
    (visibility : Option String) : RunResult Json :=
  let vis := visibility.getD "PUBLIC"
  match validateConfig cfg with
  | Except.error e =>
    let (entry, err) := handleError e
    ⟨Except.error err, [], [entry]⟩
  | Except.ok _ =>
    let call : HttpCall :=
      ⟨Method.post, ugcPostsURL,
       ReqBody.jsonBody (articlePostData cfg.urn text articleUrl articleTitle
         articleDescription vis)⟩
    match tr 0 with
    | TransportOutcome.success body =>
      ⟨Except.ok body, [call], [LogEntry.info "Successfully posted article to LinkedIn!"]⟩
    | TransportOutcome.failure e =>
      let (entry, err) := handleError e
      ⟨Except.error err, [call], [entry]⟩

/-- Extraction of
`resp.value.uploadMechanism['com.linkedin.digitalmedia.uploading.MediaUploadHttpRequest'].uploadUrl`
and `resp.value.asset` from the registration response (lines 145–146);
a missing field is a thrown TypeError, modelled as `none`. -/
def extractUpload (resp : Json) : Option (String × Json) :=
  (resp.getObj "value").bind fun v =>
    (v.getObj "uploadMechanism").bind fun um =>
      (um.getObj "com.linkedin.digitalmedia.uploading.MediaUploadHttpRequest").bind fun mr =>
        (mr.getObj "uploadUrl").bind fun u =>
          u.asStr.bind fun url =>
            (v.getObj "asset").map fun asset => (url, asset)

/-- Message of the error `fs.readFileSync` throws for an unreadable path. -/
def readFileErrMsg (path : String) : String :=
  "ENOENT: no such file or directory, open " ++ path

/-- Message of the TypeError thrown when the registration response lacks
the expected fields. -/
def typeErrorMsg : String :=
  "Cannot read properties of undefined"

/-- `postImage(text, imagePath, visibility = 'PUBLIC')`: validate, then
step 1 register the upload (`registerImageUpload`), step 2 read the file
and PUT it to the returned upload URL (`uploadImage`), step 3 POST the
image payload to the posts endpoint. Any failure goes through
`handleError` and settles the method with that error. -/
def postImage (cfg : Config) (tr : Transport) (fs : String → Option String)
    (text imagePath : String) (visibility : Option String) : RunResult Json :=
  let vis := visibility.getD "PUBLIC"
  match validateConfig cfg with
  | Except.error e =>
    let (entry, err) := handleError e
    ⟨Except.error err, [], [entry]⟩
  | Except.ok _ =>
    let regCall : HttpCall :=
      ⟨Method.post, registerUploadURL, ReqBody.jsonBody (registerData cfg.urn)⟩
    match tr 0 with
    | TransportOutcome.failure e =>
      let (entry, err) := handleError e
      ⟨Except.error err, [regCall], [entry]⟩
    | TransportOutcome.success regResp =>
      match extractUpload regResp with
      | none =>
        let (entry, err) := handleError (JsError.jsMessage typeErrorMsg)
        ⟨Except.error err, [regCall], [entry]⟩
      | some (uploadUrl, asset) =>
        match fs imagePath with
        | none =>
          let (entry, err) := handleError (JsError.jsMessage (readFileErrMsg imagePath))
          ⟨Except.error err, [regCall], [entry]⟩
        | some bytes =>
          let upCall : HttpCall := ⟨Method.put, uploadUrl, ReqBody.binary bytes⟩
          match tr 1 with
          | TransportOutcome.failure e =>
            let (entry, err) := handleError e
            ⟨Except.error err, [regCall, upCall], [entry]⟩
          | TransportOutcome.success _ =>
            let createCall : HttpCall :=
              ⟨Method.post, ugcPostsURL,
               ReqBody.jsonBody (imagePostData cfg.urn text vis asset)⟩
            match tr 2 with
            | TransportOutcome.failure e =>
              let (entry, err) := handleError e
              ⟨Except.error err, [regCall, upCall, createCall], [entry]⟩
            | TransportOutcome.success body =>
              ⟨Except.ok body, [regCall, upCall, createCall],
               [LogEntry.info "Successfully posted image to LinkedIn!"]⟩

/-- `getUserProfile()`: a single authenticated GET of `/me`. -/
def getUserProfile (cfg : Config) (tr : Transport) : RunResult Json :=
  match validateConfig cfg with
  | Except.error e =>
    let (entry, err) := handleError e
    ⟨Except.error err, [], [entry]⟩
  | Except.ok _ =>
    let call : HttpCall := ⟨Method.get, meURL, ReqBody.empty⟩
    match tr 0 with
    | TransportOutcome.success body =>
      ⟨Except.ok body, [call], [LogEntry.info "User Profile"]⟩
    | TransportOutcome.failure e =>
      let (entry, err) := handleError e
      ⟨Except.error err, [call], [entry]⟩

/-- The `postConfig` object handed to `schedulePost`. -/
structure PostConfig where
  type : String
  text : String
  visibility : Option String
  articleUrl : String
  articleTitle : String
  articleDescription : String
  imagePath : String

/-- The timer callback registered by `schedulePost` (lines 232–248): log,
dispatch on `postConfig.type`, and settle with whatever the awaited
method settles with — the body has no try/catch of its own. A type tag
matching none of the three branches falls through and resolves
silently. -/
def jobBody (cfg : Config) (tr : Transport) (fs : String → Option String)
    (pc : PostConfig) : RunResult Unit :=
  let entry := LogEntry.info "Executing scheduled post..."
  if pc.type = "text" then
    let r := postTextUpdate cfg tr pc.text pc.visibility
    ⟨r.result.map (fun _ => ()), r.calls, entry :: r.log⟩
  else if pc.type = "article" then
    let r := postArticle cfg tr pc.text pc.articleUrl pc.articleTitle
      pc.articleDescription pc.visibility
    ⟨r.result.map (fun _ => ()), r.calls, entry :: r.log⟩
  else if pc.type = "image" then
    let r := postImage cfg tr fs pc.text pc.imagePath pc.visibility
    ⟨r.result.map (fun _ => ()), r.calls, entry :: r.log⟩
  else
    ⟨Except.ok (), [], [entry]⟩

/-- The job returned by `schedulePost`: the configuration captured by the
callback's closure and the requested fire time. -/
structure ScheduledJob where
  config : PostConfig
  firesAt : Int

/-- `schedulePost(postConfig, scheduledTime)`: register the timer and
return its handle. -/
def schedulePost (pc : PostConfig) (scheduledTime : Int) : ScheduledJob :=
  ⟨pc, scheduledTime⟩

/-- Firing a scheduled job runs its callback. -/
def runScheduledJob (cfg : Config) (tr : Transport) (fs : String → Option String)
    (j : ScheduledJob) : RunResult Unit :=
  jobBody cfg tr fs j.config

/-! Concrete fixtures used to exercise the theorems on closed inputs. -/

/-- A valid credential context. -/
def cfgW : Config := ⟨some "tok", some "urn:li:person:1"⟩

/-- The registration response of end-to-end scenario B. -/
def regRespW : Json :=
  Json.obj
    [("value", Json.obj
      [("uploadMechanism", Json.obj
        [("com.linkedin.digitalmedia.uploading.MediaUploadHttpRequest", Json.obj
          [("uploadUrl", Json.str "https://u")])]),
       ("asset", Json.str "urn:li:digitalmediaAsset:1")])]

/-- A stub transport where registration, upload and post creation all
succeed (scenario B). -/
def trGoodW : Transport := fun n =>
  match n with
  | 0 => TransportOutcome.success regRespW
  | 1 => TransportOutcome.success (Json.obj [])
  | _ => TransportOutcome.success (Json.obj [("id", Json.str "urn:li:share:2")])

/-- A stub transport where registration succeeds and every later call
receives no response. -/
def trFailUpW : Transport := fun n =>
  match n with
  | 0 => TransportOutcome.success regRespW
  | _ => TransportOutcome.failure (JsError.httpNoResponse "ECONNREFUSED")

/-- A stub transport whose every call fails with a 500 response. -/
def trFail500W : Transport := fun _ =>
  TransportOutcome.failure (JsError.httpResponse 500 (Json.obj []))

/-- A stub transport where registration and upload succeed and the
create-post call fails with a 422 response. -/
def trFailCreateW : Transport := fun n =>
  match n with
  | 0 => TransportOutcome.success regRespW
  | 1 => TransportOutcome.success (Json.obj [])
  | _ => TransportOutcome.failure (JsError.httpResponse 422 (Json.obj []))

/-- A stub transport whose registration response lacks the expected
upload fields. -/
def trBadRespW : Transport := fun _ => TransportOutcome.success (Json.obj [])

/-- A file system where every path is readable. -/
def fsW : String → Option String := fun _ => some "bytes"

/-- A file system where no path is readable. -/
def fsNoneW : String → Option String := fun _ => none

/-- A text post configuration for the scheduler. -/
def pcTextW : PostConfig :=
  ⟨"text", "later", some "PUBLIC", "", "", "", ""⟩

/-- An article post configuration for the scheduler. -/
def pcArticleW : PostConfig :=
  ⟨"article", "t", some "PUBLIC", "https://a", "ti", "d", ""⟩

/-- An image post configuration for the scheduler. -/
def pcImageW : PostConfig :=
  ⟨"image", "t", some "PUBLIC", "", "", "", "/tmp/x.jpg"⟩

/-- A post configuration whose type tag matches no dispatch branch. -/
def pcVideoW : PostConfig :=
  ⟨"video", "x", some "PUBLIC", "", "", "", ""⟩

/-- C6: the payload built by `postTextUpdate` has author = the actor URN,
lifecycle state "PUBLISHED", commentary text exactly the supplied text,
media category "NONE", and a visibility block whose value is exactly the
supplied visibility — in particular `CONNECTIONS` when that is supplied. -/
theorem textPostData_fields (urn t v : String) :
    (textPostData urn t v).getObj "author" = some (Json.str urn)
    ∧ (textPostData urn t v).getObj "lifecycleState" = some (Json.str "PUBLISHED")
    ∧ (textPostData urn t v).getPath
        ["specificContent", "com.linkedin.ugc.ShareContent", "shareCommentary", "text"]
      = some (Json.str t)
    ∧ (textPostData urn t v).getPath
        ["specificContent", "com.linkedin.ugc.ShareContent", "shareMediaCategory"]
      = some (Json.str "NONE")
    ∧ (textPostData urn t v).getPath
        ["visibility", "com.linkedin.ugc.MemberNetworkVisibility"]
      = some (Json.str v) :=
  ⟨rfl, rfl, rfl, rfl, rfl⟩

/-- C7: the payload built by `postArticle` has media category "ARTICLE"
and exactly one media entry, carrying the supplied URL, title and
description with status "READY". -/
theorem articlePostData_media (urn t u ti d v : String) :
    (articlePostData urn t u ti d v).getPath
        ["specificContent", "com.linkedin.ugc.ShareContent", "shareMediaCategory"]
      = some (Json.str "ARTICLE")
    ∧ (articlePostData urn t u ti d v).getPath
        ["specificContent", "com.linkedin.ugc.ShareContent", "media"]
      = some (Json.arr
          [Json.obj
            [("status", Json.str "READY"),
             ("originalUrl", Json.str u),
             ("title", Json.obj [("text", Json.str ti)]),
             ("description", Json.obj [("text", Json.str d)])]]) :=
  ⟨rfl, rfl⟩

/-- C8: payload construction is pure and deterministic — the request
bodies issued by `postTextUpdate` and `postArticle` do not depend on the
transport, the text payload is exactly `textPostData` of the inputs, and
the three bodies issued by `postImage` are determined by the inputs, the
file bytes and the asset handle extracted from the registration
response. -/
theorem payloadBuilder_pure (cfg : Config) (tr tr2 : Transport)
    (fs : String → Option String) (t u ti d p : String) (v : Option String) :
    ((postTextUpdate cfg tr t v).calls.map HttpCall.body
      = (postTextUpdate cfg tr2 t v).calls.map HttpCall.body)
    ∧ ((postArticle cfg tr t u ti d v).calls.map HttpCall.body
      = (postArticle cfg tr2 t u ti d v).calls.map HttpCall.body)
    ∧ (validateConfig cfg = Except.ok () →
        (postTextUpdate cfg tr t v).calls.map HttpCall.body
          = [ReqBody.jsonBody (textPostData cfg.urn t (v.getD "PUBLIC"))])
    ∧ (∀ resp url asset bytes b1,
        validateConfig cfg = Except.ok () →
        tr 0 = TransportOutcome.success resp →
        extractUpload resp = some (url, asset) →
        fs p = some bytes →
        tr 1 = TransportOutcome.success b1 →
        (postImage cfg tr fs t p v).calls.map HttpCall.body
          = [ReqBody.jsonBody (registerData cfg.urn),
             ReqBody.binary bytes,
             ReqBody.jsonBody (imagePostData cfg.urn t (v.getD "PUBLIC") asset)]) := by
  refine ⟨?_, ?_, ?_, ?_⟩
  · cases h : validateConfig cfg with
    | error e => simp [postTextUpdate, h]
    | ok w =>
      cases h0 : tr 0 <;> cases h02 : tr2 0 <;>
        simp [postTextUpdate, h, h0, h02, handleError]
  · cases h : validateConfig cfg with
    | error e => simp [postArticle, h]
    | ok w =>
      cases h0 : tr 0 <;> cases h02 : tr2 0 <;>
        simp [postArticle, h, h0, h02, handleError]
  · intro h
    cases h0 : tr 0 <;> simp [postTextUpdate, h, h0, handleError]
  · intro resp url asset bytes b1 hv h0 hex hfs h1
    cases h2 : tr 2 <;> simp [postImage, hv, h0, hex, hfs, h1, h2, handleError]

/-- Witness for C8 at scenario-B inputs. -/
theorem payloadBuilder_pure_witness :
    (postImage cfgW trGoodW fsW "caption" "/tmp/x.jpg" (some "PUBLIC")).calls.map HttpCall.body
      = [ReqBody.jsonBody (registerData cfgW.urn),
         ReqBody.binary "bytes",
         ReqBody.jsonBody
           (imagePostData cfgW.urn "caption" "PUBLIC" (Json.str "urn:li:digitalmediaAsset:1"))] :=
  (payloadBuilder_pure cfgW trGoodW trGoodW fsW "caption" "u" "ti" "d" "/tmp/x.jpg"
    (some "PUBLIC")).2.2.2 regRespW "https://u" (Json.str "urn:li:digitalmediaAsset:1")
    "bytes" (Json.obj []) rfl rfl rfl rfl rfl

/-- C2: with a missing or empty token or actor URN, `validateConfig`
throws a configuration error, and every Publisher operation settles with
exactly that error while issuing zero HTTP calls. -/
theorem invalidConfig_noCalls (cfg : Config) (tr : Transport)
    (fs : String → Option String) (t u ti d p : String) (v : Option String) :
    ((truthy cfg.accessToken = false ∨ truthy cfg.personURN = false) →
      ∃ m, validateConfig cfg = Except.error (JsError.jsMessage m))
    ∧ (∀ e, validateConfig cfg = Except.error e →
        ((postTextUpdate cfg tr t v).result = Except.error e
         ∧ (postTextUpdate cfg tr t v).calls = [])
        ∧ ((postArticle cfg tr t u ti d v).result = Except.error e
           ∧ (postArticle cfg tr t u ti d v).calls = [])
        ∧ ((postImage cfg tr fs t p v).result = Except.error e
           ∧ (postImage cfg tr fs t p v).calls = [])
        ∧ ((getUserProfile cfg tr).result = Except.error e
           ∧ (getUserProfile cfg tr).calls = [])) := by
  constructor
  · intro h
    by_cases ha : truthy cfg.accessToken
    · rcases h with h | h
      · rw [ha] at h; cases h
      · exact ⟨"LINKEDIN_PERSON_URN is not set in .env file",
          by simp [validateConfig, ha, h]⟩
    · exact ⟨"LINKEDIN_ACCESS_TOKEN is not set in .env file",
        by simp [validateConfig, ha]⟩
  · intro e he
    refine ⟨?_, ?_, ?_, ?_⟩ <;>
      simp [postTextUpdate, postArticle, postImage, getUserProfile, he, handleError]

/-- Witness for C2: an unset token yields a configuration error and no
calls from `postTextUpdate`. -/
theorem invalidConfig_noCalls_witness :
    (∃ m, validateConfig ⟨none, some "urn:li:person:1"⟩
        = Except.error (JsError.jsMessage m))
    ∧ (postTextUpdate ⟨none, some "urn:li:person:1"⟩ trGoodW "x" (some "PUBLIC")).calls = [] :=
  ⟨(invalidConfig_noCalls ⟨none, some "urn:li:person:1"⟩ trGoodW fsW "x" "u" "ti" "d" "p"
      (some "PUBLIC")).1 (Or.inl rfl),
   (((invalidConfig_noCalls ⟨none, some "urn:li:person:1"⟩ trGoodW fsW "x" "u" "ti" "d" "p"
      (some "PUBLIC")).2
      (JsError.jsMessage "LINKEDIN_ACCESS_TOKEN is not set in .env file") rfl).1).2⟩

/-- If `postTextUpdate` settles with an error, its log is exactly that
error's structured diagnostic. -/
theorem postTextUpdate_error_log (cfg : Config) (tr : Transport) (t : String)
    (v : Option String) (e : JsError) :
    (postTextUpdate cfg tr t v).result = Except.error e →
    (postTextUpdate cfg tr t v).log = [classify e] := by
  cases hv : validateConfig cfg with
  | error e2 =>
    simp only [postTextUpdate, hv, handleError]
    intro h
    injection h with h
    rw [h]
  | ok w =>
    cases h0 : tr 0 with
    | success body => simp [postTextUpdate, hv, h0]
    | failure e2 =>
      simp only [postTextUpdate, hv, h0, handleError]
      intro h
      injection h with h
      rw [h]

/-- If `postArticle` settles with an error, its log is exactly that
error's structured diagnostic. -/
theorem postArticle_error_log (cfg : Config) (tr : Transport)
    (t u ti d : String) (v : Option String) (e : JsError) :
    (postArticle cfg tr t u ti d v).result = Except.error e →
    (postArticle cfg tr t u ti d v).log = [classify e] := by
  cases hv : validateConfig cfg with
  | error e2 =>
    simp only [postArticle, hv, handleError]
    intro h
    injection h with h
    rw [h]
  | ok w =>
    cases h0 : tr 0 with
    | success body => simp [postArticle, hv, h0]
    | failure e2 =>
      simp only [postArticle, hv, h0, handleError]
      intro h
      injection h with h
      rw [h]

/-- If `getUserProfile` settles with an error, its log is exactly that
error's structured diagnostic. -/
theorem getUserProfile_error_log (cfg : Config) (tr : Transport) (e : JsError) :
    (getUserProfile cfg tr).result = Except.error e →
    (getUserProfile cfg tr).log = [classify e] := by
  cases hv : validateConfig cfg with
  | error e2 =>
    simp only [getUserProfile, hv, handleError]
    intro h
    injection h with h
    rw [h]
  | ok w =>
    cases h0 : tr 0 with
    | success body => simp [getUserProfile, hv, h0]
    | failure e2 =>
      simp only [getUserProfile, hv, h0, handleError]
      intro h
      injection h with h
      rw [h]

/-- If `postImage` settles with an error — at any of its failure points:
configuration, registration, response extraction, file read, binary
upload, post creation — its log is exactly that error's structured
diagnostic. -/
theorem postImage_error_log (cfg : Config) (tr : Transport)
    (fs : String → Option String) (t p : String) (v : Option String)
    (e : JsError) :
    (postImage cfg tr fs t p v).result = Except.error e →
    (postImage cfg tr fs t p v).log = [classify e] := by
  cases hv : validateConfig cfg with
  | error e2 =>
    simp only [postImage, hv, handleError]
    intro h
    injection h with h
    rw [h]
  | ok w =>
    cases h0 : tr 0 with
    | failure e2 =>
      simp only [postImage, hv, h0, handleError]
      intro h
      injection h with h
      rw [h]
    | success resp =>
      cases hex : extractUpload resp with
      | none =>
        simp only [postImage, hv, h0, hex, handleError]
        intro h
        injection h with h
        rw [h]
      | some pr =>
        obtain ⟨url, asset⟩ := pr
        cases hfs : fs p with
        | none =>
          simp only [postImage, hv, h0, hex, hfs, handleError]
          intro h
          injection h with h
          rw [h]
        | some bytes =>
          cases h1 : tr 1 with
          | failure e2 =>
            simp only [postImage, hv, h0, hex, hfs, h1, handleError]
            intro h
            injection h with h
            rw [h]
          | success b1 =>
            cases h2 : tr 2 with
            | failure e2 =>
              simp only [postImage, hv, h0, hex, hfs, h1, h2, handleError]
              intro h
              injection h with h
              rw [h]
            | success b2 =>
              simp [postImage, hv, h0, hex, hfs, h1, h2]

/-- C5: `handleError` distinguishes the three failure shapes (non-2xx
response → ApiError with status and body; no response → NetworkError;
anything else → ClientError); every Publisher operation that settles with
an error has logged exactly that error's structured diagnostic; and at
every failure point of each operation's call chain — the first transport
call of all four operations, and for `postImage` also the malformed
registration response, the file read, the binary upload and the
create-post call — the very same error is re-raised to the caller with
its diagnostic logged, and no call is retried. -/
theorem publisher_error_propagation (cfg : Config) (tr : Transport)
    (fs : String → Option String) (t u ti d p : String) (v : Option String)
    (e : JsError) (s : Nat) (b : Json) (m : String) :
    (classify (JsError.httpResponse s b) = LogEntry.apiError s b
     ∧ classify (JsError.httpNoResponse m) = LogEntry.networkError m
     ∧ classify (JsError.jsMessage m) = LogEntry.clientError m)
    ∧ (((postTextUpdate cfg tr t v).result = Except.error e →
          (postTextUpdate cfg tr t v).log = [classify e])
       ∧ ((postArticle cfg tr t u ti d v).result = Except.error e →
          (postArticle cfg tr t u ti d v).log = [classify e])
       ∧ ((getUserProfile cfg tr).result = Except.error e →
          (getUserProfile cfg tr).log = [classify e])
       ∧ ((postImage cfg tr fs t p v).result = Except.error e →
          (postImage cfg tr fs t p v).log = [classify e]))
    ∧ (validateConfig cfg = Except.ok () → tr 0 = TransportOutcome.failure e →
        ((postTextUpdate cfg tr t v).result = Except.error e
         ∧ (postTextUpdate cfg tr t v).log = [classify e]
         ∧ (postTextUpdate cfg tr t v).calls.length = 1)
        ∧ ((postArticle cfg tr t u ti d v).result = Except.error e
           ∧ (postArticle cfg tr t u ti d v).log = [classify e]
           ∧ (postArticle cfg tr t u ti d v).calls.length = 1)
        ∧ ((getUserProfile cfg tr).result = Except.error e
           ∧ (getUserProfile cfg tr).log = [classify e]
           ∧ (getUserProfile cfg tr).calls.length = 1)
        ∧ ((postImage cfg tr fs t p v).result = Except.error e
           ∧ (postImage cfg tr fs t p v).log = [classify e]
           ∧ (postImage cfg tr fs t p v).calls.length = 1))
    ∧ (∀ resp url asset bytes,
        validateConfig cfg = Except.ok () →
        tr 0 = TransportOutcome.success resp →
        (extractUpload resp = none →
          (postImage cfg tr fs t p v).result
            = Except.error (JsError.jsMessage typeErrorMsg)
          ∧ (postImage cfg tr fs t p v).log
            = [classify (JsError.jsMessage typeErrorMsg)]
          ∧ (postImage cfg tr fs t p v).calls.length = 1)
        ∧ (extractUpload resp = some (url, asset) →
            (fs p = none →
              (postImage cfg tr fs t p v).result
                = Except.error (JsError.jsMessage (readFileErrMsg p))
              ∧ (postImage cfg tr fs t p v).log
                = [classify (JsError.jsMessage (readFileErrMsg p))]
              ∧ (postImage cfg tr fs t p v).calls.length = 1)
            ∧ (fs p = some bytes →
                (tr 1 = TransportOutcome.failure e →
                  (postImage cfg tr fs t p v).result = Except.error e
                  ∧ (postImage cfg tr fs t p v).log = [classify e]
                  ∧ (postImage cfg tr fs t p v).calls.length = 2)
                ∧ (tr 1 = TransportOutcome.success b →
                    tr 2 = TransportOutcome.failure e →
                    (postImage cfg tr fs t p v).result = Except.error e
                    ∧ (postImage cfg tr fs t p v).log = [classify e]
                    ∧ (postImage cfg tr fs t p v).calls.length = 3)))) := by
  refine ⟨⟨rfl, rfl, rfl⟩,
    ⟨postTextUpdate_error_log cfg tr t v e,
     postArticle_error_log cfg tr t u ti d v e,
     getUserProfile_error_log cfg tr e,
     postImage_error_log cfg tr fs t p v e⟩, ?_, ?_⟩
  · intro hv h0
    refine ⟨?_, ?_, ?_, ?_⟩ <;>
      simp [postTextUpdate, postArticle, postImage, getUserProfile, hv, h0, handleError]
  · intro resp url asset bytes hv h0
    refine ⟨?_, ?_⟩
    · intro hex
      simp [postImage, hv, h0, hex, handleError]
    · intro hex
      refine ⟨?_, ?_⟩
      · intro hfs
        simp [postImage, hv, h0, hex, hfs, handleError]
      · intro hfs
        refine ⟨?_, ?_⟩
        · intro h1
          simp [postImage, hv, h0, hex, hfs, h1, handleError]
        · intro h1 h2
          simp [postImage, hv, h0, hex, hfs, h1, h2, handleError]

/-- Witness for C5 at concrete failure points of the chain: a 500 at the
posts endpoint, a malformed registration response, an unreadable image
file, a failed binary upload, and a failed create-post call are each
re-raised, with the upload and create failures showing 2 and 3 issued
calls. -/
theorem publisher_error_propagation_witness :
    ((postTextUpdate cfgW trFail500W "x" (some "PUBLIC")).result
      = Except.error (JsError.httpResponse 500 (Json.obj []))
     ∧ (postTextUpdate cfgW trFail500W "x" (some "PUBLIC")).log
      = [classify (JsError.httpResponse 500 (Json.obj []))])
    ∧ ((postImage cfgW trBadRespW fsW "x" "/tmp/x.jpg" (some "PUBLIC")).result
      = Except.error (JsError.jsMessage typeErrorMsg))
    ∧ ((postImage cfgW trGoodW fsNoneW "x" "/nope.jpg" (some "PUBLIC")).result
      = Except.error (JsError.jsMessage (readFileErrMsg "/nope.jpg")))
    ∧ ((postImage cfgW trFailUpW fsW "x" "/tmp/x.jpg" (some "PUBLIC")).result
      = Except.error (JsError.httpNoResponse "ECONNREFUSED")
     ∧ (postImage cfgW trFailUpW fsW "x" "/tmp/x.jpg" (some "PUBLIC")).calls.length = 2)
    ∧ ((postImage cfgW trFailCreateW fsW "x" "/tmp/x.jpg" (some "PUBLIC")).result
      = Except.error (JsError.httpResponse 422 (Json.obj []))
     ∧ (postImage cfgW trFailCreateW fsW "x" "/tmp/x.jpg" (some "PUBLIC")).calls.length = 3) := by
  refine ⟨⟨?_, ?_⟩, ?_, ?_, ⟨?_, ?_⟩, ⟨?_, ?_⟩⟩
  · exact (((publisher_error_propagation cfgW trFail500W fsW "x" "u" "ti" "d" "p"
      (some "PUBLIC") (JsError.httpResponse 500 (Json.obj [])) 500 (Json.obj [])
      "m").2.2.1 rfl rfl).1).1
  · exact (((publisher_error_propagation cfgW trFail500W fsW "x" "u" "ti" "d" "p"
      (some "PUBLIC") (JsError.httpResponse 500 (Json.obj [])) 500 (Json.obj [])
      "m").2.2.1 rfl rfl).1).2.1
  · exact (((publisher_error_propagation cfgW trBadRespW fsW "x" "u" "ti" "d" "/tmp/x.jpg"
      (some "PUBLIC") (JsError.jsMessage "m") 500 (Json.obj []) "m").2.2.2
      (Json.obj []) "" (Json.obj []) "" rfl rfl).1 rfl).1
  · exact ((((publisher_error_propagation cfgW trGoodW fsNoneW "x" "u" "ti" "d" "/nope.jpg"
      (some "PUBLIC") (JsError.jsMessage "m") 500 (Json.obj []) "m").2.2.2
      regRespW "https://u" (Json.str "urn:li:digitalmediaAsset:1") "" rfl rfl).2 rfl).1
      rfl).1
  · exact (((((publisher_error_propagation cfgW trFailUpW fsW "x" "u" "ti" "d" "/tmp/x.jpg"
      (some "PUBLIC") (JsError.httpNoResponse "ECONNREFUSED") 500 (Json.obj [])
      "m").2.2.2 regRespW "https://u" (Json.str "urn:li:digitalmediaAsset:1")
      "bytes" rfl rfl).2 rfl).2 rfl).1 rfl).1
  · exact (((((publisher_error_propagation cfgW trFailUpW fsW "x" "u" "ti" "d" "/tmp/x.jpg"
      (some "PUBLIC") (JsError.httpNoResponse "ECONNREFUSED") 500 (Json.obj [])
      "m").2.2.2 regRespW "https://u" (Json.str "urn:li:digitalmediaAsset:1")
      "bytes" rfl rfl).2 rfl).2 rfl).1 rfl).2.2
  · exact (((((publisher_error_propagation cfgW trFailCreateW fsW "x" "u" "ti" "d" "/tmp/x.jpg"
      (some "PUBLIC") (JsError.httpResponse 422 (Json.obj [])) 500 (Json.obj [])
      "m").2.2.2 regRespW "https://u" (Json.str "urn:li:digitalmediaAsset:1")
      "bytes" rfl rfl).2 rfl).2 rfl).2 rfl rfl).1
  · exact (((((publisher_error_propagation cfgW trFailCreateW fsW "x" "u" "ti" "d" "/tmp/x.jpg"
      (some "PUBLIC") (JsError.httpResponse 422 (Json.obj [])) 500 (Json.obj [])
      "m").2.2.2 regRespW "https://u" (Json.str "urn:li:digitalmediaAsset:1")
      "bytes" rfl rfl).2 rfl).2 rfl).2 rfl rfl).2.2

/-- C1: `postImage` runs register → binary upload → create strictly in
sequence. If the upload call (the operation's second HTTP call) fails, no
POST to the posts endpoint is ever issued; and when registration,
extraction, file read, upload and creation all succeed, exactly three
HTTP calls are issued, in order: the registration POST, the binary PUT to
the upload URL, and the create-post POST. -/
theorem postImage_phases (cfg : Config) (tr : Transport)
    (fs : String → Option String) (t p : String) (v : Option String) :
    (∀ e, tr 1 = TransportOutcome.failure e →
      ∀ c ∈ (postImage cfg tr fs t p v).calls,
        ¬ (c.method = Method.post ∧ c.url = ugcPostsURL))
    ∧ (∀ resp url asset bytes b1 b2,
        validateConfig cfg = Except.ok () →
        tr 0 = TransportOutcome.success resp →
        extractUpload resp = some (url, asset) →
        fs p = some bytes →
        tr 1 = TransportOutcome.success b1 →
        tr 2 = TransportOutcome.success b2 →
        (postImage cfg tr fs t p v).calls
          = [⟨Method.post, registerUploadURL, ReqBody.jsonBody (registerData cfg.urn)⟩,
             ⟨Method.put, url, ReqBody.binary bytes⟩,
             ⟨Method.post, ugcPostsURL,
              ReqBody.jsonBody (imagePostData cfg.urn t (v.getD "PUBLIC") asset)⟩]
        ∧ (postImage cfg tr fs t p v).result = Except.ok b2) := by
  have hurl : registerUploadURL ≠ ugcPostsURL := by decide
  constructor
  · intro e h1 c hc
    cases hv : validateConfig cfg with
    | error e2 => simp [postImage, hv] at hc
    | ok w =>
      cases h0 : tr 0 with
      | failure e2 =>
        simp [postImage, hv, h0, handleError] at hc
        subst hc
        exact fun hand => hurl hand.2
      | success resp =>
        cases hex : extractUpload resp with
        | none =>
          simp [postImage, hv, h0, hex, handleError] at hc
          subst hc
          exact fun hand => hurl hand.2
        | some pr =>
          cases hfs : fs p with
          | none =>
            simp [postImage, hv, h0, hex, hfs, handleError] at hc
            subst hc
            exact fun hand => hurl hand.2
          | some bytes =>
            simp [postImage, hv, h0, hex, hfs, h1, handleError] at hc
            rcases hc with hc | hc <;> subst hc
            · exact fun hand => hurl hand.2
            · exact fun hand => Method.noConfusion hand.1
  · intro resp url asset bytes b1 b2 hv h0 hex hfs h1 h2
    simp [postImage, hv, h0, hex, hfs, h1, h2, handleError]

/-- Witness for C1: scenario B issues the three calls in order and
returns the created post, and with the upload failing no create-post
call is a POST to the posts endpoint. -/
theorem postImage_phases_witness :
    (postImage cfgW trGoodW fsW "caption" "/tmp/x.jpg" (some "PUBLIC")).calls
      = [⟨Method.post, registerUploadURL, ReqBody.jsonBody (registerData cfgW.urn)⟩,
         ⟨Method.put, "https://u", ReqBody.binary "bytes"⟩,
         ⟨Method.post, ugcPostsURL,
          ReqBody.jsonBody (imagePostData cfgW.urn "caption" "PUBLIC"
            (Json.str "urn:li:digitalmediaAsset:1"))⟩]
    ∧ (postImage cfgW trGoodW fsW "caption" "/tmp/x.jpg" (some "PUBLIC")).result
      = Except.ok (Json.obj [("id", Json.str "urn:li:share:2")])
    ∧ ¬ (Method.put = Method.post ∧ "https://u" = ugcPostsURL) :=
  ⟨((postImage_phases cfgW trGoodW fsW "caption" "/tmp/x.jpg" (some "PUBLIC")).2
      regRespW "https://u" (Json.str "urn:li:digitalmediaAsset:1") "bytes"
      (Json.obj []) (Json.obj [("id", Json.str "urn:li:share:2")])
      rfl rfl rfl rfl rfl rfl).1,
   ((postImage_phases cfgW trGoodW fsW "caption" "/tmp/x.jpg" (some "PUBLIC")).2
      regRespW "https://u" (Json.str "urn:li:digitalmediaAsset:1") "bytes"
      (Json.obj []) (Json.obj [("id", Json.str "urn:li:share:2")])
      rfl rfl rfl rfl rfl rfl).2,
   (postImage_phases cfgW trFailUpW fsW "caption" "/tmp/x.jpg" (some "PUBLIC")).1
      (JsError.httpNoResponse "ECONNREFUSED") rfl
      ⟨Method.put, "https://u", ReqBody.binary "bytes"⟩
      (List.Mem.tail _ (List.Mem.head _))⟩

/-- C9: with a valid credential context and a well-formed registration
response, an unreadable image path still produces the registration
request; the operation then fails with the file-read error from the
upload phase, and no further call — in particular no cleanup call — is
issued for the freshly registered asset. -/
theorem postImage_fileRead_afterRegister (cfg : Config) (tr : Transport)
    (fs : String → Option String) (t p : String) (v : Option String)
    (resp : Json) (url : String) (asset : Json) :
    validateConfig cfg = Except.ok () →
    tr 0 = TransportOutcome.success resp →
    extractUpload resp = some (url, asset) →
    fs p = none →
    (postImage cfg tr fs t p v).calls
      = [⟨Method.post, registerUploadURL, ReqBody.jsonBody (registerData cfg.urn)⟩]
    ∧ (postImage cfg tr fs t p v).result
      = Except.error (JsError.jsMessage (readFileErrMsg p)) := by
  intro hv h0 hex hfs
  simp [postImage, hv, h0, hex, hfs, handleError]

/-- Witness for C9 at a concrete unreadable path. -/
theorem postImage_fileRead_afterRegister_witness :
    (postImage cfgW trGoodW fsNoneW "caption" "/nope.jpg" (some "PUBLIC")).calls
      = [⟨Method.post, registerUploadURL, ReqBody.jsonBody (registerData cfgW.urn)⟩]
    ∧ (postImage cfgW trGoodW fsNoneW "caption" "/nope.jpg" (some "PUBLIC")).result
      = Except.error (JsError.jsMessage (readFileErrMsg "/nope.jpg")) :=
  postImage_fileRead_afterRegister cfgW trGoodW fsNoneW "caption" "/nope.jpg"
    (some "PUBLIC") regRespW "https://u" (Json.str "urn:li:digitalmediaAsset:1")
    rfl rfl rfl rfl

/-- C10: `schedulePost` registers a job for any type tag and returns its
handle; when the tag matches none of "text", "article", "image", the
fired job body makes no Publisher call, issues no HTTP request, and
completes silently. -/
theorem schedulePost_unknownType (pc : PostConfig) (time : Int) (cfg : Config)
    (tr : Transport) (fs : String → Option String) :
    pc.type ≠ "text" → pc.type ≠ "article" → pc.type ≠ "image" →
    (schedulePost pc time).config = pc
    ∧ (schedulePost pc time).firesAt = time
    ∧ (runScheduledJob cfg tr fs (schedulePost pc time)).result = Except.ok ()
    ∧ (runScheduledJob cfg tr fs (schedulePost pc time)).calls = [] := by
  intro h1 h2 h3
  refine ⟨rfl, rfl, ?_, ?_⟩ <;>
    simp [runScheduledJob, schedulePost, jobBody, h1, h2, h3]

/-- Witness for C10 with an unrecognised "video" tag. -/
theorem schedulePost_unknownType_witness :
    (runScheduledJob cfgW trGoodW fsW (schedulePost pcVideoW 5)).result = Except.ok ()
    ∧ (runScheduledJob cfgW trGoodW fsW (schedulePost pcVideoW 5)).calls = [] :=
  ⟨(schedulePost_unknownType pcVideoW 5 cfgW trGoodW fsW
      (by decide) (by decide) (by decide)).2.2.1,
   (schedulePost_unknownType pcVideoW 5 cfgW trGoodW fsW
      (by decide) (by decide) (by decide)).2.2.2⟩

/-- C4 counterexample: a fired text job whose Publisher call receives a
500 response does not settle successfully — the job body settles with
the re-raised error, so the failure is not swallowed inside the job
body. -/
theorem scheduledJob_swallow_cex :
    (runScheduledJob cfgW trFail500W fsW (schedulePost pcTextW 0)).result
      = Except.error (JsError.httpResponse 500 (Json.obj []))
    ∧ (runScheduledJob cfgW trFail500W fsW (schedulePost pcTextW 0)).result
      ≠ Except.ok () := by
  constructor
  · rfl
  · intro h
    rw [show (runScheduledJob cfgW trFail500W fsW (schedulePost pcTextW 0)).result
        = Except.error (JsError.httpResponse 500 (Json.obj [])) from rfl] at h
    exact Except.noConfusion h

/-- C4 amended: whichever of the three dispatch branches a fired job
takes — text, article or image — when its Publisher call fails, the
failure is logged with its structured diagnostic, but the job body,
which has no handler of its own, settles with the re-raised error
instead of swallowing it, issuing exactly the calls of the failed
operation and nothing more. -/
theorem scheduledJob_error_escapes (cfg : Config) (tr : Transport)
    (fs : String → Option String) (pc : PostConfig) (time : Int) (e : JsError) :
    (pc.type = "text" →
      (postTextUpdate cfg tr pc.text pc.visibility).result = Except.error e →
      (runScheduledJob cfg tr fs (schedulePost pc time)).result = Except.error e
      ∧ classify e ∈ (runScheduledJob cfg tr fs (schedulePost pc time)).log
      ∧ (runScheduledJob cfg tr fs (schedulePost pc time)).calls
        = (postTextUpdate cfg tr pc.text pc.visibility).calls)
    ∧ (pc.type = "article" →
      (postArticle cfg tr pc.text pc.articleUrl pc.articleTitle
        pc.articleDescription pc.visibility).result = Except.error e →
      (runScheduledJob cfg tr fs (schedulePost pc time)).result = Except.error e
      ∧ classify e ∈ (runScheduledJob cfg tr fs (schedulePost pc time)).log
      ∧ (runScheduledJob cfg tr fs (schedulePost pc time)).calls
        = (postArticle cfg tr pc.text pc.articleUrl pc.articleTitle
            pc.articleDescription pc.visibility).calls)
    ∧ (pc.type = "image" →
      (postImage cfg tr fs pc.text pc.imagePath pc.visibility).result = Except.error e →
      (runScheduledJob cfg tr fs (schedulePost pc time)).result = Except.error e
      ∧ classify e ∈ (runScheduledJob cfg tr fs (schedulePost pc time)).log
      ∧ (runScheduledJob cfg tr fs (schedulePost pc time)).calls
        = (postImage cfg tr fs pc.text pc.imagePath pc.visibility).calls) := by
  refine ⟨?_, ?_, ?_⟩
  · intro ht he
    have hlog := postTextUpdate_error_log cfg tr pc.text pc.visibility e he
    refine ⟨?_, ?_, ?_⟩ <;>
      simp [runScheduledJob, schedulePost, jobBody, ht, he, hlog, Except.map]
  · intro ht he
    have hlog := postArticle_error_log cfg tr pc.text pc.articleUrl pc.articleTitle
      pc.articleDescription pc.visibility e he
    refine ⟨?_, ?_, ?_⟩ <;>
      simp [runScheduledJob, schedulePost, jobBody, ht, he, hlog, Except.map]
  · intro ht he
    have hlog := postImage_error_log cfg tr fs pc.text pc.imagePath pc.visibility e he
    refine ⟨?_, ?_, ?_⟩ <;>
      simp [runScheduledJob, schedulePost, jobBody, ht, he, hlog, Except.map]

/-- Witness for the amended C4: fired text, article and image jobs
against a transport whose calls fail with a 500 all settle with the
re-raised error, the text job with its diagnostic in the job log. -/
theorem scheduledJob_error_escapes_witness :
    ((runScheduledJob cfgW trFail500W fsW (schedulePost pcTextW 0)).result
      = Except.error (JsError.httpResponse 500 (Json.obj []))
     ∧ classify (JsError.httpResponse 500 (Json.obj []))
       ∈ (runScheduledJob cfgW trFail500W fsW (schedulePost pcTextW 0)).log)
    ∧ (runScheduledJob cfgW trFail500W fsW (schedulePost pcArticleW 0)).result
      = Except.error (JsError.httpResponse 500 (Json.obj []))
    ∧ (runScheduledJob cfgW trFail500W fsW (schedulePost pcImageW 0)).result
      = Except.error (JsError.httpResponse 500 (Json.obj [])) :=
  ⟨⟨((scheduledJob_error_escapes cfgW trFail500W fsW pcTextW 0
      (JsError.httpResponse 500 (Json.obj []))).1 rfl rfl).1,
    ((scheduledJob_error_escapes cfgW trFail500W fsW pcTextW 0
      (JsError.httpResponse 500 (Json.obj []))).1 rfl rfl).2.1⟩,
   ((scheduledJob_error_escapes cfgW trFail500W fsW pcArticleW 0
      (JsError.httpResponse 500 (Json.obj []))).2.1 rfl rfl).1,
   ((scheduledJob_error_escapes cfgW trFail500W fsW pcImageW 0
      (JsError.httpResponse 500 (Json.obj []))).2.2 rfl rfl).1⟩

end LinkedInAgent
